import Mathlib

/-!
Verification of the user-router of `fastapi_project_template`
(`src/fastapi_project_template/routes/user.py`), as a shallow embedding.

The persisted store is a list of `User` rows (the `user` table); the
per-request session is modelled by explicit state passing: each handler
takes the persisted store and returns its HTTP result together with the
store as it stands after the request (errors are raised before any
`session.commit()`, so on the error paths the returned store is the input
store unchanged).  The authenticated caller (`get_current_user(request)` /
the `AuthenticatedUser` dependency) is passed as an explicit `User`
argument.  HTTP error details are omitted; only the status code matters
to the specification.
-/

namespace UserRouter

/-- A row of the `User` table (id, username, password, superuser flag),
as used by `routes/user.py`. -/
structure User where
  id : Nat
  username : String
  password : String
  superuser : Bool
deriving Repr, DecidableEq

/-- The persisted store: the rows of the `User` table, in insertion order. -/
structure Store where
  users : List User
deriving Repr, DecidableEq

/-- `fastapi.exceptions.HTTPException`, reduced to its status code
(detail strings are irrelevant to the claims). -/
structure HTTPError where
  status_code : Nat
deriving Repr, DecidableEq

/-- Modelled from the spec: `HashedPassword` is imported from the
`security` module, which is not under `src/`; the spec says the password
field "always holds a hash, never the raw input" produced by a one-way
password-hashing constructor.  We model it as an injective tagging
function; what matters is that its output is never the raw input. -/
def HashedPassword (s : String) : String := "$hash$" ++ s

/-- The `UserPasswordPatch` request body: {password, password_confirm}. -/
structure UserPasswordPatch where
  password : String
  password_confirm : String
deriving Repr, DecidableEq

/-- Modelled from the spec: the `UserCreate` payload (from the `security`
module, not under `src/`): "a creation payload (username, plaintext
password, etc.)". -/
structure UserCreate where
  username : String
  password : String
  superuser : Bool
deriving Repr, DecidableEq

/-- `session.get(User, user_id)`: primary-key lookup, the row whose `id`
is `user_id` (first such row in the store). -/
def sessionGet (db : Store) (user_id : Nat) : Option User :=
  db.users.find? (fun u => u.id == user_id)

/-- `list_users`: `return session.exec(select(User)).all()` — all rows,
store untouched. -/
def list_users (db : Store) : List User × Store :=
  (db.users, db)

/-- The autoincrement primary key the database assigns on insert:
one more than the largest id in use. -/
def nextId (db : Store) : Nat :=
  (db.users.map User.id).foldr max 0 + 1

/-- `create_user`: `db_user = User.from_orm(user); session.add(db_user);
session.commit(); session.refresh(db_user); return db_user`.  The row is
built from the payload (password stored hashed, per the `security`
module's schema), appended to the table, and returned with its assigned
id. -/
def create_user (db : Store) (user : UserCreate) : User × Store :=
  let db_user : User :=
    { id := nextId db
      username := user.username
      password := HashedPassword user.password
      superuser := user.superuser }
  (db_user, ⟨db.users ++ [db_user]⟩)

/-- `user.password = HashedPassword(patch.password)` followed by
`session.commit()`: the row object returned by `session.get` (the first
row with the given id) has its password replaced; all other rows are
untouched. -/
def setPassword (users : List User) (user_id : Nat) (pw : String) : List User :=
  match users with
  | [] => []
  | u :: rest =>
    if u.id == user_id then { u with password := pw } :: rest
    else u :: setPassword rest user_id pw

/-- `update_user_password`, lines 41-69 of `routes/user.py`:
404 if `session.get` finds no row; 403 if the caller is neither the
target nor a superuser; 400 if password and confirmation differ;
otherwise hash, store, commit, and return the refreshed row. -/
def update_user_password (db : Store) (user_id : Nat) (current_user : User)
    (patch : UserPasswordPatch) : Except HTTPError User × Store :=
  match sessionGet db user_id with
  | none => (.error ⟨404⟩, db)
  | some user =>
    if user.id != current_user.id && !current_user.superuser then
      (.error ⟨403⟩, db)
    else if patch.password != patch.password_confirm then
      (.error ⟨400⟩, db)
    else
      (.ok { user with password := HashedPassword patch.password },
       ⟨setPassword db.users user_id (HashedPassword patch.password)⟩)

/-- The path parameter of `query_user`, declared `Union[str, int]`:
either a numeric id or a username string. -/
inductive UserIdOrUsername where
  | asId (n : Nat)
  | asName (s : String)
deriving Repr, DecidableEq

/-- The SQL predicate `or_(User.id == v, User.username == v)`: typed
equality of each column against the single value `v`. -/
def fieldMatches (v : UserIdOrUsername) (u : User) : Bool :=
  (match v with
   | .asId n => u.id == n
   | .asName _ => false)
  ||
  (match v with
   | .asId _ => false
   | .asName s => u.username == s)

/-- Truthiness of the handle bound by the walrus in
`if user := session.query(User).where(...)`: a SQLAlchemy `Query` object
defines neither a boolean conversion nor a length, so the interpreter
falls back to default object truthiness — the handle is truthy no matter
what rows it would yield. -/
def queryTruthy (_ : List User) : Bool := true

/-- `query_user`, lines 77-88 of `routes/user.py`: build the query for
rows whose id or username equals the value, test the handle's
truthiness, and return `user.first()` (the first matching row, `None`
when there is none); the `else` branch raises 404. -/
def query_user (db : Store) (user_id_or_username : UserIdOrUsername) :
    Except HTTPError (Option User) × Store :=
  let user := db.users.filter (fieldMatches user_id_or_username)
  if queryTruthy user then
    (.ok user.head?, db)
  else
    (.error ⟨404⟩, db)

/-- `my_profile`: `return current_user` — the caller's record straight
from the authentication context; no session argument at all. -/
def my_profile (current_user : User) : User :=
  current_user

/-- `session.delete(user)`: remove the row object returned by
`session.get` (the first row with the given id). -/
def deleteById (users : List User) (user_id : Nat) : List User :=
  match users with
  | [] => []
  | u :: rest =>
    if u.id == user_id then rest
    else u :: deleteById rest user_id

/-- `delete_user`, lines 96-111 of `routes/user.py`: 404 if `session.get`
finds no row; 403 if the target is the caller; otherwise delete, commit,
and return `{"ok": True}`. -/
def delete_user (db : Store) (user_id : Nat) (current_user : User) :
    Except HTTPError Bool × Store :=
  match sessionGet db user_id with
  | none => (.error ⟨404⟩, db)
  | some user =>
    if user.id == current_user.id then
      (.error ⟨403⟩, db)
    else
      (.ok true, ⟨deleteById db.users user_id⟩)

/-! ### Branch lemmas for `update_user_password` and `delete_user` -/

theorem upw_absent (db : Store) (uid : Nat) (cur : User) (patch : UserPasswordPatch)
    (h : sessionGet db uid = none) :
    update_user_password db uid cur patch = (.error ⟨404⟩, db) := by
  simp [update_user_password, h]

theorem upw_forbidden (db : Store) (uid : Nat) (cur u : User) (patch : UserPasswordPatch)
    (h : sessionGet db uid = some u) (hid : u.id ≠ cur.id) (hsu : cur.superuser = false) :
    update_user_password db uid cur patch = (.error ⟨403⟩, db) := by
  simp [update_user_password, h, hid, hsu]

theorem upw_allowed_cond (cur u : User) (hok : u.id = cur.id ∨ cur.superuser = true) :
    (u.id != cur.id && !cur.superuser) = false := by
  rcases hok with h1 | h1 <;> simp [h1]

theorem upw_mismatch (db : Store) (uid : Nat) (cur u : User) (patch : UserPasswordPatch)
    (h : sessionGet db uid = some u) (hok : u.id = cur.id ∨ cur.superuser = true)
    (hne : patch.password ≠ patch.password_confirm) :
    update_user_password db uid cur patch = (.error ⟨400⟩, db) := by
  simp [update_user_password, h, upw_allowed_cond cur u hok, hne]

theorem upw_success (db : Store) (uid : Nat) (cur u : User) (patch : UserPasswordPatch)
    (h : sessionGet db uid = some u) (hok : u.id = cur.id ∨ cur.superuser = true)
    (hpw : patch.password = patch.password_confirm) :
    update_user_password db uid cur patch =
      (.ok { u with password := HashedPassword patch.password },
       ⟨setPassword db.users uid (HashedPassword patch.password)⟩) := by
  simp [update_user_password, h, upw_allowed_cond cur u hok, hpw]

theorem del_absent (db : Store) (uid : Nat) (cur : User)
    (h : sessionGet db uid = none) :
    delete_user db uid cur = (.error ⟨404⟩, db) := by
  simp [delete_user, h]

theorem del_self (db : Store) (uid : Nat) (cur u : User)
    (h : sessionGet db uid = some u) (hid : u.id = cur.id) :
    delete_user db uid cur = (.error ⟨403⟩, db) := by
  simp [delete_user, h, hid]

theorem del_other (db : Store) (uid : Nat) (cur u : User)
    (h : sessionGet db uid = some u) (hid : u.id ≠ cur.id) :
    delete_user db uid cur = (.ok true, ⟨deleteById db.users uid⟩) := by
  simp [delete_user, h, hid]

/-! ### Store lemmas -/

theorem find?_id_eq_none (users : List User) (uid : Nat)
    (h : uid ∉ users.map User.id) :
    users.find? (fun u => u.id == uid) = none := by
  rw [List.find?_eq_none]
  intro x hx
  simp only [beq_iff_eq]
  intro hEq
  exact h (List.mem_map.mpr ⟨x, hx, hEq⟩)

theorem deleteById_find?_none (users : List User) (uid : Nat)
    (h : (users.map User.id).Nodup) :
    (deleteById users uid).find? (fun u => u.id == uid) = none := by
  induction users with
  | nil => rfl
  | cons u rest ih =>
    simp only [List.map_cons, List.nodup_cons] at h
    by_cases hc : u.id = uid
    · simp only [deleteById, hc, beq_self_eq_true, if_pos]
      exact find?_id_eq_none rest uid (hc ▸ h.1)
    · have hb : (u.id == uid) = false := by simp [hc]
      simp only [deleteById, hb, Bool.false_eq_true, if_false, List.find?_cons, hb]
      exact ih h.2

theorem setPassword_find? (users : List User) (uid : Nat) (pw : String) (u : User)
    (h : users.find? (fun x => x.id == uid) = some u) :
    (setPassword users uid pw).find? (fun x => x.id == uid) =
      some { u with password := pw } := by
  induction users with
  | nil => nomatch h
  | cons v rest ih =>
    by_cases hc : v.id = uid
    · have hb : (v.id == uid) = true := by simp [hc]
      rw [List.find?_cons, hb] at h
      obtain rfl : v = u := Option.some.inj h
      simp only [setPassword, hb, if_pos, List.find?_cons, hb]
    · have hb : (v.id == uid) = false := by simp [hc]
      rw [List.find?_cons, hb] at h
      simp only [setPassword, hb, Bool.false_eq_true, if_false, List.find?_cons, hb]
      exact ih h

theorem HashedPassword_ne_raw (s : String) : HashedPassword s ≠ s := by
  intro contra
  have hlen := congrArg String.length contra
  rw [HashedPassword, String.length_append] at hlen
  have h6 : ("$hash$" : String).length = 6 := rfl
  rw [h6] at hlen
  omega

/-! ### Claim theorems -/

/-- C1: the spec claims `query_user` fails with 404 when neither the id
field nor the username field of any stored user equals the value.  The
code cannot do so: the `if user := session.query(...)` walrus tests the
truthiness of the Query handle, which is always true, so the 404 branch
is dead and, on the failing input (empty store, lookup of username
"alice"), the handler returns `user.first()`, i.e. `None`, instead of
raising 404. -/
theorem query_user_no_match_returns_none_not_404 :
    query_user ⟨[]⟩ (.asName "alice") = (.ok none, ⟨[]⟩) ∧
    query_user ⟨[]⟩ (.asName "alice") ≠ (.error ⟨404⟩, ⟨[]⟩) :=
  ⟨rfl, fun h => nomatch (congrArg Prod.fst h)⟩

/-- C2 counterexample: the claim says a mismatched confirmation yields
400 for every caller identity when the target exists; but for a caller
who is neither the target (id 2 vs target id 1) nor a superuser, the 403
check fires first, so the result is 403, not 400. -/
theorem upw_mismatch_nonowner_gets_403_not_400 :
    (update_user_password ⟨[⟨1, "alice", "h", false⟩]⟩ 1 ⟨2, "bob", "h", false⟩
        ⟨"a", "b"⟩).fst = .error ⟨403⟩ ∧
    (update_user_password ⟨[⟨1, "alice", "h", false⟩]⟩ 1 ⟨2, "bob", "h", false⟩
        ⟨"a", "b"⟩).fst ≠ .error ⟨400⟩ :=
  ⟨rfl, fun h => by
    rw [show (update_user_password ⟨[⟨1, "alice", "h", false⟩]⟩ 1
        ⟨2, "bob", "h", false⟩ ⟨"a", "b"⟩).fst = .error ⟨403⟩ from rfl] at h
    exact absurd (congrArg HTTPError.status_code (Except.error.inj h)) (by decide)⟩

/-- C2 amended: for every `update_user_password` request in which the
submitted password and its confirmation differ, the operation yields a
400 error, provided the target user id exists and the caller is the
target user or a superuser (other callers hit the 403 check first). -/
theorem upw_mismatch_owner_or_admin_400 (db : Store) (uid : Nat) (cur u : User)
    (patch : UserPasswordPatch) (h : sessionGet db uid = some u)
    (hok : u.id = cur.id ∨ cur.superuser = true)
    (hne : patch.password ≠ patch.password_confirm) :
    (update_user_password db uid cur patch).fst = .error ⟨400⟩ := by
  rw [upw_mismatch db uid cur u patch h hok hne]

/-- C2 amended, witness: owner caller (id 1), target id 1 exists,
passwords "a" and "b" differ, result is 400. -/
theorem upw_mismatch_owner_or_admin_400_witness :
    (update_user_password ⟨[⟨1, "alice", "h", false⟩]⟩ 1 ⟨1, "alice", "h", false⟩
        ⟨"a", "b"⟩).fst = .error ⟨400⟩ :=
  upw_mismatch_owner_or_admin_400 ⟨[⟨1, "alice", "h", false⟩]⟩ 1
    ⟨1, "alice", "h", false⟩ ⟨1, "alice", "h", false⟩ ⟨"a", "b"⟩
    (by decide) (Or.inl rfl) (by decide)

/-- C3: `update_user_password` checks its failure conditions in order:
404 when no user has the given id; otherwise 403 when the caller is
neither the target nor a superuser (so a non-admin, non-owner caller
targeting an existing other account always receives 403); otherwise 400
when the password and its confirmation differ; otherwise success with
the updated record. -/
theorem update_user_password_check_order (db : Store) (uid : Nat) (cur : User)
    (patch : UserPasswordPatch) :
    (sessionGet db uid = none →
      (update_user_password db uid cur patch).fst = .error ⟨404⟩) ∧
    (∀ u, sessionGet db uid = some u → u.id ≠ cur.id → cur.superuser = false →
      (update_user_password db uid cur patch).fst = .error ⟨403⟩) ∧
    (∀ u, sessionGet db uid = some u → (u.id = cur.id ∨ cur.superuser = true) →
      patch.password ≠ patch.password_confirm →
      (update_user_password db uid cur patch).fst = .error ⟨400⟩) ∧
    (∀ u, sessionGet db uid = some u → (u.id = cur.id ∨ cur.superuser = true) →
      patch.password = patch.password_confirm →
      (update_user_password db uid cur patch).fst =
        .ok { u with password := HashedPassword patch.password }) :=
  ⟨fun h => by rw [upw_absent db uid cur patch h],
   fun u h hid hsu => by rw [upw_forbidden db uid cur u patch h hid hsu],
   fun u h hok hne => by rw [upw_mismatch db uid cur u patch h hok hne],
   fun u h hok hpw => by rw [upw_success db uid cur u patch h hok hpw]⟩

/-- C3 witness: target id 1 exists, caller id 2 is not a superuser, so
the response is 403, even though the confirmation also mismatches. -/
theorem update_user_password_check_order_witness :
    (update_user_password ⟨[⟨1, "alice", "h", false⟩]⟩ 1 ⟨2, "bob", "h", false⟩
        ⟨"a", "b"⟩).fst = .error ⟨403⟩ :=
  (update_user_password_check_order ⟨[⟨1, "alice", "h", false⟩]⟩ 1
      ⟨2, "bob", "h", false⟩ ⟨"a", "b"⟩).2.1 ⟨1, "alice", "h", false⟩
    (by decide) (by decide) rfl

/-- C4: for an admin `delete_user` request: 404 when no user has the
given id; 403 when the target is the caller; otherwise the target row is
removed from the store (so that, when ids are unique, looking it up
afterwards finds nothing), the change committed, and the response is
ok. -/
theorem delete_user_check_order (db : Store) (uid : Nat) (cur : User) :
    (sessionGet db uid = none → delete_user db uid cur = (.error ⟨404⟩, db)) ∧
    (∀ u, sessionGet db uid = some u → u.id = cur.id →
      delete_user db uid cur = (.error ⟨403⟩, db)) ∧
    (∀ u, sessionGet db uid = some u → u.id ≠ cur.id →
      delete_user db uid cur = (.ok true, ⟨deleteById db.users uid⟩) ∧
      ((db.users.map User.id).Nodup →
        sessionGet (delete_user db uid cur).snd uid = none)) :=
  ⟨fun h => del_absent db uid cur h,
   fun u h hid => del_self db uid cur u h hid,
   fun u h hid =>
     ⟨del_other db uid cur u h hid,
      fun hnd => by
        rw [del_other db uid cur u h hid]
        exact deleteById_find?_none db.users uid hnd⟩⟩

/-- C4 witness: admin id 2 deletes existing user id 1: the response is
ok and the row is gone. -/
theorem delete_user_check_order_witness :
    delete_user ⟨[⟨1, "alice", "h", false⟩]⟩ 1 ⟨2, "bob", "h", true⟩ =
      (.ok true, ⟨[]⟩) ∧
    sessionGet (delete_user ⟨[⟨1, "alice", "h", false⟩]⟩ 1 ⟨2, "bob", "h", true⟩).snd
      1 = none :=
  ⟨((delete_user_check_order ⟨[⟨1, "alice", "h", false⟩]⟩ 1
      ⟨2, "bob", "h", true⟩).2.2 ⟨1, "alice", "h", false⟩ (by decide) (by decide)).1,
   ((delete_user_check_order ⟨[⟨1, "alice", "h", false⟩]⟩ 1
      ⟨2, "bob", "h", true⟩).2.2 ⟨1, "alice", "h", false⟩ (by decide) (by decide)).2
     (by decide)⟩

/-- C5: a successful password update stores the hash of the submitted
password on the target row — never the raw input — commits the change,
and returns the updated record. -/
theorem upw_success_stores_hash (db : Store) (uid : Nat) (cur u : User)
    (patch : UserPasswordPatch) (h : sessionGet db uid = some u)
    (hok : u.id = cur.id ∨ cur.superuser = true)
    (hpw : patch.password = patch.password_confirm) :
    (update_user_password db uid cur patch).fst =
      .ok { u with password := HashedPassword patch.password } ∧
    sessionGet (update_user_password db uid cur patch).snd uid =
      some { u with password := HashedPassword patch.password } ∧
    HashedPassword patch.password ≠ patch.password := by
  rw [upw_success db uid cur u patch h hok hpw]
  exact ⟨rfl, setPassword_find? db.users uid (HashedPassword patch.password) u h,
    HashedPassword_ne_raw patch.password⟩

/-- C5 witness: owner id 1 updates their own password to "new"; the
stored value is the hash of "new", not "new" itself. -/
theorem upw_success_stores_hash_witness :
    (update_user_password ⟨[⟨1, "alice", "old", false⟩]⟩ 1 ⟨1, "alice", "old", false⟩
        ⟨"new", "new"⟩).fst = .ok ⟨1, "alice", HashedPassword "new", false⟩ ∧
    sessionGet (update_user_password ⟨[⟨1, "alice", "old", false⟩]⟩ 1
        ⟨1, "alice", "old", false⟩ ⟨"new", "new"⟩).snd 1 =
      some ⟨1, "alice", HashedPassword "new", false⟩ ∧
    HashedPassword "new" ≠ "new" :=
  upw_success_stores_hash ⟨[⟨1, "alice", "old", false⟩]⟩ 1
    ⟨1, "alice", "old", false⟩ ⟨1, "alice", "old", false⟩ ⟨"new", "new"⟩
    (by decide) (Or.inl rfl) rfl

/-- C6: `list_users` returns exactly the persisted `User` records — the
whole table, unfiltered and unpaginated — and leaves the store
unchanged. -/
theorem list_users_returns_all (db : Store) :
    (list_users db).fst = db.users ∧ (list_users db).snd = db :=
  ⟨rfl, rfl⟩

/-- C7: round trip — an admin-created user with a fresh username (no
stored user already has it) is returned by a subsequent `query_user` on
that username. -/
theorem create_then_query_returns_created (db : Store) (payload : UserCreate)
    (hfresh : ∀ u ∈ db.users, u.username ≠ payload.username) :
    (query_user (create_user db payload).snd (.asName payload.username)).fst =
      .ok (some (create_user db payload).fst) := by
  have hold : db.users.filter (fieldMatches (.asName payload.username)) = [] := by
    rw [List.filter_eq_nil_iff]
    intro u hu
    simp only [fieldMatches, Bool.false_or, beq_iff_eq]
    exact hfresh u hu
  show Except.ok (((db.users ++ [(create_user db payload).fst]).filter
      (fieldMatches (.asName payload.username))).head?) =
    .ok (some (create_user db payload).fst)
  rw [List.filter_append, hold, List.nil_append]
  simp [create_user, fieldMatches]

/-- C7 witness: creating "alice" in an empty store then querying by
username "alice" returns the created record. -/
theorem create_then_query_returns_created_witness :
    (query_user (create_user ⟨[]⟩ ⟨"alice", "pw1", false⟩).snd
        (.asName "alice")).fst =
      .ok (some (create_user ⟨[]⟩ ⟨"alice", "pw1", false⟩).fst) :=
  create_then_query_returns_created ⟨[]⟩ ⟨"alice", "pw1", false⟩
    (by simp)

/-- C8: `my_profile` returns the caller's own record straight from the
authentication context; its signature takes no store at all, so it
issues no query and can raise no error. -/
theorem my_profile_returns_caller (current_user : User) :
    my_profile current_user = current_user :=
  rfl

theorem setPassword_forall₂ (users : List User) (uid : Nat) (pw : String) :
    List.Forall₂ (fun a b => b.id = a.id ∧ b.username = a.username ∧
      b.superuser = a.superuser ∧ (b.password = a.password ∨ b.password = pw) ∧
      (a.id ≠ uid → b = a)) users (setPassword users uid pw) := by
  induction users with
  | nil => exact List.Forall₂.nil
  | cons u rest ih =>
    by_cases hc : u.id = uid
    · have hb : (u.id == uid) = true := by simp [hc]
      simp only [setPassword, hb, if_pos]
      exact List.Forall₂.cons
        ⟨rfl, rfl, rfl, Or.inr rfl, fun hne => absurd hc hne⟩
        (List.forall₂_same.mpr fun x _ => ⟨rfl, rfl, rfl, Or.inl rfl, fun _ => rfl⟩)
    · have hb : (u.id == uid) = false := by simp [hc]
      simp only [setPassword, hb, Bool.false_eq_true, if_false]
      exact List.Forall₂.cons ⟨rfl, rfl, rfl, Or.inl rfl, fun _ => rfl⟩ ih

/-- C9: frame of a successful password update — row by row, the new
store keeps every id, username and superuser flag; a row's password is
either untouched or the new hash; and every row whose id differs from
the target id is entirely unchanged. -/
theorem upw_success_frame (db : Store) (uid : Nat) (cur u : User)
    (patch : UserPasswordPatch) (h : sessionGet db uid = some u)
    (hok : u.id = cur.id ∨ cur.superuser = true)
    (hpw : patch.password = patch.password_confirm) :
    List.Forall₂ (fun a b => b.id = a.id ∧ b.username = a.username ∧
        b.superuser = a.superuser ∧
        (b.password = a.password ∨ b.password = HashedPassword patch.password) ∧
        (a.id ≠ uid → b = a))
      db.users (update_user_password db uid cur patch).snd.users := by
  rw [upw_success db uid cur u patch h hok hpw]
  exact setPassword_forall₂ db.users uid (HashedPassword patch.password)

/-- C9 witness: superuser id 2 updates user id 1's password; user id 2's
own row is untouched and row 1 keeps its id, username and flag. -/
theorem upw_success_frame_witness :
    List.Forall₂ (fun a b => b.id = a.id ∧ b.username = a.username ∧
        b.superuser = a.superuser ∧
        (b.password = a.password ∨ b.password = HashedPassword "new") ∧
        (a.id ≠ 1 → b = a))
      [⟨1, "alice", "old", false⟩, ⟨2, "bob", "pw", true⟩]
      (update_user_password ⟨[⟨1, "alice", "old", false⟩, ⟨2, "bob", "pw", true⟩]⟩
        1 ⟨2, "bob", "pw", true⟩ ⟨"new", "new"⟩).snd.users :=
  upw_success_frame ⟨[⟨1, "alice", "old", false⟩, ⟨2, "bob", "pw", true⟩]⟩ 1
    ⟨2, "bob", "pw", true⟩ ⟨1, "alice", "old", false⟩ ⟨"new", "new"⟩
    (by decide) (Or.inr rfl) rfl

/-- C10: atomicity on error — whenever `update_user_password` or
`delete_user` ends in an HTTP error, the error was raised before any
commit, so the persisted store is exactly the input store. -/
theorem error_before_commit (db : Store) (uid : Nat) (cur : User)
    (patch : UserPasswordPatch) (e : HTTPError) :
    ((update_user_password db uid cur patch).fst = .error e →
      (update_user_password db uid cur patch).snd = db) ∧
    ((delete_user db uid cur).fst = .error e →
      (delete_user db uid cur).snd = db) := by
  constructor
  · intro hf
    cases hg : sessionGet db uid with
    | none => rw [upw_absent db uid cur patch hg]
    | some u =>
      by_cases h403 : u.id ≠ cur.id ∧ cur.superuser = false
      · rw [upw_forbidden db uid cur u patch hg h403.1 h403.2]
      · have hok : u.id = cur.id ∨ cur.superuser = true := by
          rcases Decidable.em (u.id = cur.id) with h1 | h1
          · exact Or.inl h1
          · cases hs : cur.superuser
            · exact absurd ⟨h1, hs⟩ h403
            · exact Or.inr rfl
        by_cases hpw : patch.password = patch.password_confirm
        · rw [upw_success db uid cur u patch hg hok hpw] at hf
          nomatch hf
        · rw [upw_mismatch db uid cur u patch hg hok hpw]
  · intro hf
    cases hg : sessionGet db uid with
    | none => rw [del_absent db uid cur hg]
    | some u =>
      by_cases hid : u.id = cur.id
      · rw [del_self db uid cur u hg hid]
      · rw [del_other db uid cur u hg hid] at hf
        nomatch hf

/-- C10 witness: both handlers hit the 404 branch on an empty store and
hand back the store unchanged. -/
theorem error_before_commit_witness :
    (update_user_password ⟨[]⟩ 1 ⟨1, "a", "h", false⟩ ⟨"x", "x"⟩).snd = ⟨[]⟩ ∧
    (delete_user ⟨[]⟩ 1 ⟨1, "a", "h", false⟩).snd = ⟨[]⟩ :=
  ⟨(error_before_commit ⟨[]⟩ 1 ⟨1, "a", "h", false⟩ ⟨"x", "x"⟩ ⟨404⟩).1 rfl,
   (error_before_commit ⟨[]⟩ 1 ⟨1, "a", "h", false⟩ ⟨"x", "x"⟩ ⟨404⟩).2 rfl⟩

end UserRouter
